import Mathlib

/-!
Shallow embedding of the calculator module (`calculator.py`): the
`Calculator` class with its arithmetic operations, memory register,
bounded history log, and the interactive command dispatch of `main`.

Modelling conventions:
* Python `float` values are embedded as exact rationals (`ℚ`).
* A value passed to an operation is a `Value`: its printed form (what an
  f-string interpolates) together with the result of `float(·)` on it,
  `none` when the conversion raises.
* The wall-clock timestamp read by `_add_to_history` is threaded in as an
  explicit `ts : String` argument of every mutating operation.
* A Python method that can raise returns `Except CalcError α × Calculator`:
  the outcome together with the state of the object after the call (the
  original state when the method raised before mutating, as every raising
  path of the source does).
-/

/-- A Python value handed to a calculator operation: `repr` is its printed
form (`f-string` interpolation) and `toNum` the result of `float(·)` on it,
`none` when that conversion raises `TypeError`/`ValueError`. -/
structure Value where
  repr : String
  toNum : Option ℚ
deriving DecidableEq

/-- A numeric (int/float) argument: `float` on it succeeds and returns it. -/
def floatValue (q : ℚ) : Value :=
  { repr := toString q, toNum := some q }

/-- A value `float(·)` rejects, such as a non-numeric string. -/
def nonNumeric (s : String) : Value :=
  { repr := s, toNum := none }

/-- The error kinds the calculator raises: `TypeError` on a non-numeric
operand, `ZeroDivisionError` on a zero divisor, and the `ValueError`
raised by a memory operation called without a value and without a stored
last result. -/
inductive CalcError where
  | invalidOperand
  | divisionByZero
  | noLastResult
deriving DecidableEq

/-- State of a `Calculator` object: `memory` register, `history` log,
the `max_history` bound fixed at construction, and `_last_result`. -/
structure Calculator where
  memory : ℚ
  history : List String
  max_history : ℕ
  last_result : Option ℚ
deriving DecidableEq

/-- `Calculator.__init__`: empty memory and history, no last result. -/
def Calculator.init (max_hist : ℕ) : Calculator :=
  { memory := 0, history := [], max_history := max_hist, last_result := none }

/-- The default `max_history` of the constructor. -/
def defaultMaxHistory : ℕ := 5

/-- Python list slice `l[-k:]`: the last `k` elements when `k > 0`; when
`k = 0` the slice `l[-0:]` is `l[0:]`, the whole list. -/
def pySliceLast (l : List String) (k : ℕ) : List String :=
  if k = 0 then l else l.drop (l.length - k)

/-- The history update performed by `_add_to_history`: append the entry,
then reassign `history[-max_history:]` when the length exceeds the bound. -/
def pushEntry (h : List String) (k : ℕ) (e : String) : List String :=
  let h2 := h ++ [e]
  if h2.length > k then pySliceLast h2 k else h2

/-- `Calculator._add_to_history`: prefix the timestamp, append, trim. -/
def Calculator.addToHistory (c : Calculator) (ts entry : String) : Calculator :=
  { c with history := pushEntry c.history c.max_history ("[" ++ ts ++ "] " ++ entry) }

/-- `Calculator.add`: on numeric operands, compute `float(a) + float(b)`,
record the history entry, store the last result and return the sum;
raise `TypeError` (state untouched) when a conversion fails. -/
def Calculator.add (c : Calculator) (ts : String) (a b : Value) :
    Except CalcError ℚ × Calculator :=
  match a.toNum, b.toNum with
  | some x, some y =>
    let result := x + y
    let c1 := c.addToHistory ts (a.repr ++ " + " ++ b.repr ++ " = " ++ toString result)
    (Except.ok result, { c1 with last_result := some result })
  | _, _ => (Except.error CalcError.invalidOperand, c)

/-- `Calculator.subtract`: as `add`, with `float(a) - float(b)`. -/
def Calculator.subtract (c : Calculator) (ts : String) (a b : Value) :
    Except CalcError ℚ × Calculator :=
  match a.toNum, b.toNum with
  | some x, some y =>
    let result := x - y
    let c1 := c.addToHistory ts (a.repr ++ " - " ++ b.repr ++ " = " ++ toString result)
    (Except.ok result, { c1 with last_result := some result })
  | _, _ => (Except.error CalcError.invalidOperand, c)

/-- `Calculator.multiply`: as `add`, with `float(a) * float(b)`. -/
def Calculator.multiply (c : Calculator) (ts : String) (a b : Value) :
    Except CalcError ℚ × Calculator :=
  match a.toNum, b.toNum with
  | some x, some y =>
    let result := x * y
    let c1 := c.addToHistory ts (a.repr ++ " * " ++ b.repr ++ " = " ++ toString result)
    (Except.ok result, { c1 with last_result := some result })
  | _, _ => (Except.error CalcError.invalidOperand, c)

/-- `Calculator.divide`: `float(b)` is evaluated first and compared with
zero — a zero divisor raises `ZeroDivisionError` before `float(a)` is ever
evaluated; a failing conversion of either operand raises `TypeError`;
otherwise the quotient is computed and recorded as in `add`. -/
def Calculator.divide (c : Calculator) (ts : String) (a b : Value) :
    Except CalcError ℚ × Calculator :=
  match b.toNum with
  | none => (Except.error CalcError.invalidOperand, c)
  | some y =>
    if y = 0 then (Except.error CalcError.divisionByZero, c)
    else
      match a.toNum with
      | none => (Except.error CalcError.invalidOperand, c)
      | some x =>
        let result := x / y
        let c1 := c.addToHistory ts (a.repr ++ " / " ++ b.repr ++ " = " ++ toString result)
        (Except.ok result, { c1 with last_result := some result })

/-- `Calculator.memory_add` (M+): with no argument, use `_last_result`,
raising `ValueError` when absent; convert the value, add it to `memory`,
record the entry. The conversion of an explicit value precedes the
mutation, so a raising call leaves the state untouched. -/
def Calculator.memory_add (c : Calculator) (ts : String) (value : Option Value) :
    Except CalcError Unit × Calculator :=
  match value with
  | none =>
    match c.last_result with
    | none => (Except.error CalcError.noLastResult, c)
    | some r =>
      let m := c.memory + r
      let c1 := { c with memory := m }
      (Except.ok (), c1.addToHistory ts ("M+ " ++ toString r ++ " (Memory: " ++ toString m ++ ")"))
  | some v =>
    match v.toNum with
    | none => (Except.error CalcError.invalidOperand, c)
    | some x =>
      let m := c.memory + x
      let c1 := { c with memory := m }
      (Except.ok (), c1.addToHistory ts ("M+ " ++ v.repr ++ " (Memory: " ++ toString m ++ ")"))

/-- `Calculator.memory_subtract` (M-): as `memory_add`, subtracting. -/
def Calculator.memory_subtract (c : Calculator) (ts : String) (value : Option Value) :
    Except CalcError Unit × Calculator :=
  match value with
  | none =>
    match c.last_result with
    | none => (Except.error CalcError.noLastResult, c)
    | some r =>
      let m := c.memory - r
      let c1 := { c with memory := m }
      (Except.ok (), c1.addToHistory ts ("M- " ++ toString r ++ " (Memory: " ++ toString m ++ ")"))
  | some v =>
    match v.toNum with
    | none => (Except.error CalcError.invalidOperand, c)
    | some x =>
      let m := c.memory - x
      let c1 := { c with memory := m }
      (Except.ok (), c1.addToHistory ts ("M- " ++ v.repr ++ " (Memory: " ++ toString m ++ ")"))

/-- `Calculator.memory_recall` (MR): return `memory`, record the entry. -/
def Calculator.memory_recall (c : Calculator) (ts : String) : ℚ × Calculator :=
  (c.memory, c.addToHistory ts ("MR (Memory: " ++ toString c.memory ++ ")"))

/-- `Calculator.memory_clear` (MC): reset `memory` to 0, record the entry. -/
def Calculator.memory_clear (c : Calculator) (ts : String) : Calculator :=
  ({ c with memory := 0 }).addToHistory ts "MC (Memory cleared)"

/-- `Calculator.get_history`: a copy of the history list. -/
def Calculator.get_history (c : Calculator) : List String :=
  c.history

/-- `Calculator.clear_history`: empty the history list. -/
def Calculator.clear_history (c : Calculator) : Calculator :=
  { c with history := [] }

/-- `Calculator.get_memory_value`: the memory register, no side effect. -/
def Calculator.get_memory_value (c : Calculator) : ℚ :=
  c.memory

/-- One invocation of a public `Calculator` method, with its arguments. -/
inductive CalcOp where
  | add (ts : String) (a b : Value)
  | subtract (ts : String) (a b : Value)
  | multiply (ts : String) (a b : Value)
  | divide (ts : String) (a b : Value)
  | memAdd (ts : String) (v : Option Value)
  | memSubtract (ts : String) (v : Option Value)
  | memRecall (ts : String)
  | memClear (ts : String)
  | getHistory
  | clearHistory
  | displayHistory
  | exportHistory
  | getMemoryValue
deriving DecidableEq

/-- The state of the calculator after invoking one method: `display_history`,
`export_history`, `get_history` and `get_memory_value` read only. -/
def Calculator.applyOp (c : Calculator) : CalcOp → Calculator
  | CalcOp.add ts a b => (c.add ts a b).2
  | CalcOp.subtract ts a b => (c.subtract ts a b).2
  | CalcOp.multiply ts a b => (c.multiply ts a b).2
  | CalcOp.divide ts a b => (c.divide ts a b).2
  | CalcOp.memAdd ts v => (c.memory_add ts v).2
  | CalcOp.memSubtract ts v => (c.memory_subtract ts v).2
  | CalcOp.memRecall ts => (c.memory_recall ts).2
  | CalcOp.memClear ts => c.memory_clear ts
  | CalcOp.getHistory => c
  | CalcOp.clearHistory => c.clear_history
  | CalcOp.displayHistory => c
  | CalcOp.exportHistory => c
  | CalcOp.getMemoryValue => c

/-- Python `str.split()` with no separator: split on runs of whitespace,
discarding empty pieces. -/
def pySplit (s : String) : List String :=
  (s.split (fun ch => ch.isWhitespace)).filter (fun t => t ≠ "")

/-- Digits to a natural number, most significant first. -/
def digitsToNat (l : List Char) : ℕ :=
  l.foldl (fun acc ch => acc * 10 + (ch.toNat - 48)) 0

/-- Modelled from the Python builtin `float` applied to a string: accepts an
optionally signed plain decimal literal (digits with an optional single
point), returning its exact value; rejects everything else. Exponent,
`inf`/`nan` and underscore forms of the builtin are not modelled — no
verified scenario uses them. -/
def pyParseFloat (s : String) : Option ℚ :=
  let t := s.trim
  let signed : ℚ × String :=
    if t.startsWith "-" then (-1, t.drop 1)
    else if t.startsWith "+" then (1, t.drop 1) else (1, t)
  let cs := signed.2.toList
  let intPart := cs.takeWhile Char.isDigit
  let rest := cs.dropWhile Char.isDigit
  match rest with
  | [] =>
    if intPart.isEmpty then none
    else some (signed.1 * (digitsToNat intPart : ℚ))
  | ch :: fracs =>
    if ch = '.' && fracs.all Char.isDigit && !(intPart.isEmpty && fracs.isEmpty) then
      some (signed.1 * ((digitsToNat intPart : ℚ) +
        (digitsToNat fracs : ℚ) / ((10 : ℚ) ^ fracs.length)))
    else none

/-- The user-facing message one iteration of the command loop prints. -/
inductive Msg where
  | goodbye
  | helpText
  | usage (cmd : String)
  | resultMsg (q : ℚ)
  | memoryMsg (q : ℚ)
  | memValueMsg (q : ℚ)
  | memClearedMsg
  | historyShown
  | historyCleared
  | exported
  | unknown (cmd : String)
  | invalidNumber
  | divByZeroMsg
  | errorMsg
deriving DecidableEq

/-- Outcome of one iteration of the loop in `main`: the calculator state
after the line, the trace of `Calculator` methods the line invoked, the
message printed, and whether the loop terminates. -/
structure Step where
  state : Calculator
  invoked : List CalcOp
  msg : Msg
  quitting : Bool
deriving DecidableEq

/-- One iteration of the interactive loop of `main` on input line `raw`:
strip and lowercase, then dispatch along the elif chain of the source —
exact matches for `quit`, `help`, `mr`, `mc`, `history`, `clear_history`
and `export`, prefix matches (`startswith`) for `add`, `sub`, `mul`,
`div`, `m+` and `m-`, and the unknown-command message otherwise. Argument
conversion failures and the errors the calculator raises are caught here,
as in the source's `except` arms. -/
def processCommand (c : Calculator) (ts : String) (raw : String) : Step :=
  let command := raw.trim.toLower
  if command = "quit" then
    { state := c, invoked := [], msg := Msg.goodbye, quitting := true }
  else if command = "help" then
    { state := c, invoked := [], msg := Msg.helpText, quitting := false }
  else if command.startsWith "add" then
    match pySplit command with
    | [_, p1, p2] =>
      match pyParseFloat p1, pyParseFloat p2 with
      | some x, some y =>
        let r := c.add ts (floatValue x) (floatValue y)
        match r.1 with
        | Except.ok v =>
          { state := r.2, invoked := [CalcOp.add ts (floatValue x) (floatValue y)],
            msg := Msg.resultMsg v, quitting := false }
        | Except.error _ =>
          { state := r.2, invoked := [CalcOp.add ts (floatValue x) (floatValue y)],
            msg := Msg.errorMsg, quitting := false }
      | _, _ => { state := c, invoked := [], msg := Msg.invalidNumber, quitting := false }
    | _ => { state := c, invoked := [], msg := Msg.usage "add", quitting := false }
  else if command.startsWith "sub" then
    match pySplit command with
    | [_, p1, p2] =>
      match pyParseFloat p1, pyParseFloat p2 with
      | some x, some y =>
        let r := c.subtract ts (floatValue x) (floatValue y)
        match r.1 with
        | Except.ok v =>
          { state := r.2, invoked := [CalcOp.subtract ts (floatValue x) (floatValue y)],
            msg := Msg.resultMsg v, quitting := false }
        | Except.error _ =>
          { state := r.2, invoked := [CalcOp.subtract ts (floatValue x) (floatValue y)],
            msg := Msg.errorMsg, quitting := false }
      | _, _ => { state := c, invoked := [], msg := Msg.invalidNumber, quitting := false }
    | _ => { state := c, invoked := [], msg := Msg.usage "sub", quitting := false }
  else if command.startsWith "mul" then
    match pySplit command with
    | [_, p1, p2] =>
      match pyParseFloat p1, pyParseFloat p2 with
      | some x, some y =>
        let r := c.multiply ts (floatValue x) (floatValue y)
        match r.1 with
        | Except.ok v =>
          { state := r.2, invoked := [CalcOp.multiply ts (floatValue x) (floatValue y)],
            msg := Msg.resultMsg v, quitting := false }
        | Except.error _ =>
          { state := r.2, invoked := [CalcOp.multiply ts (floatValue x) (floatValue y)],
            msg := Msg.errorMsg, quitting := false }
      | _, _ => { state := c, invoked := [], msg := Msg.invalidNumber, quitting := false }
    | _ => { state := c, invoked := [], msg := Msg.usage "mul", quitting := false }
  else if command.startsWith "div" then
    match pySplit command with
    | [_, p1, p2] =>
      match pyParseFloat p1, pyParseFloat p2 with
      | some x, some y =>
        let r := c.divide ts (floatValue x) (floatValue y)
        match r.1 with
        | Except.ok v =>
          { state := r.2, invoked := [CalcOp.divide ts (floatValue x) (floatValue y)],
            msg := Msg.resultMsg v, quitting := false }
        | Except.error e =>
          { state := r.2, invoked := [CalcOp.divide ts (floatValue x) (floatValue y)],
            msg := if e = CalcError.divisionByZero then Msg.divByZeroMsg else Msg.errorMsg,
            quitting := false }
      | _, _ => { state := c, invoked := [], msg := Msg.invalidNumber, quitting := false }
    | _ => { state := c, invoked := [], msg := Msg.usage "div", quitting := false }
  else if command.startsWith "m+" then
    match pySplit command with
    | _ :: p1 :: _ =>
      match pyParseFloat p1 with
      | some x =>
        let r := c.memory_add ts (some (floatValue x))
        match r.1 with
        | Except.ok _ =>
          { state := r.2, invoked := [CalcOp.memAdd ts (some (floatValue x)), CalcOp.getMemoryValue],
            msg := Msg.memoryMsg r.2.get_memory_value, quitting := false }
        | Except.error _ =>
          { state := r.2, invoked := [CalcOp.memAdd ts (some (floatValue x))],
            msg := Msg.errorMsg, quitting := false }
      | none => { state := c, invoked := [], msg := Msg.invalidNumber, quitting := false }
    | _ =>
      let r := c.memory_add ts none
      match r.1 with
      | Except.ok _ =>
        { state := r.2, invoked := [CalcOp.memAdd ts none, CalcOp.getMemoryValue],
          msg := Msg.memoryMsg r.2.get_memory_value, quitting := false }
      | Except.error _ =>
        { state := r.2, invoked := [CalcOp.memAdd ts none],
          msg := Msg.invalidNumber, quitting := false }
  else if command.startsWith "m-" then
    match pySplit command with
    | _ :: p1 :: _ =>
      match pyParseFloat p1 with
      | some x =>
        let r := c.memory_subtract ts (some (floatValue x))
        match r.1 with
        | Except.ok _ =>
          { state := r.2, invoked := [CalcOp.memSubtract ts (some (floatValue x)), CalcOp.getMemoryValue],
            msg := Msg.memoryMsg r.2.get_memory_value, quitting := false }
        | Except.error _ =>
          { state := r.2, invoked := [CalcOp.memSubtract ts (some (floatValue x))],
            msg := Msg.errorMsg, quitting := false }
      | none => { state := c, invoked := [], msg := Msg.invalidNumber, quitting := false }
    | _ =>
      let r := c.memory_subtract ts none
      match r.1 with
      | Except.ok _ =>
        { state := r.2, invoked := [CalcOp.memSubtract ts none, CalcOp.getMemoryValue],
          msg := Msg.memoryMsg r.2.get_memory_value, quitting := false }
      | Except.error _ =>
        { state := r.2, invoked := [CalcOp.memSubtract ts none],
          msg := Msg.invalidNumber, quitting := false }
  else if command = "mr" then
    let r := c.memory_recall ts
    { state := r.2, invoked := [CalcOp.memRecall ts], msg := Msg.memValueMsg r.1, quitting := false }
  else if command = "mc" then
    { state := c.memory_clear ts, invoked := [CalcOp.memClear ts],
      msg := Msg.memClearedMsg, quitting := false }
  else if command = "history" then
    { state := c, invoked := [CalcOp.displayHistory], msg := Msg.historyShown, quitting := false }
  else if command = "clear_history" then
    { state := c.clear_history, invoked := [CalcOp.clearHistory],
      msg := Msg.historyCleared, quitting := false }
  else if command = "export" then
    { state := c, invoked := [CalcOp.exportHistory], msg := Msg.exported, quitting := false }
  else
    { state := c, invoked := [], msg := Msg.unknown command, quitting := false }

/-- The C4 scenario: a calculator bounded to 3 entries after 5 additions. -/
def calcC4 : Calculator :=
  ((((((Calculator.init 3).add "t1" (floatValue 1) (floatValue 1)).2.add
      "t2" (floatValue 2) (floatValue 2)).2.add
      "t3" (floatValue 3) (floatValue 3)).2.add
      "t4" (floatValue 4) (floatValue 4)).2.add
      "t5" (floatValue 5) (floatValue 5)).2

theorem pushEntry_length_le (h : List String) (k : ℕ) (e : String)
    (hpos : 0 < k) (hle : h.length ≤ k) :
    (pushEntry h k e).length ≤ k := by
  have hk : ¬ k = 0 := by omega
  simp only [pushEntry, pySliceLast, hk, if_false]
  split
  · simp only [List.length_drop, List.length_append, List.length_cons, List.length_nil]
    omega
  · next hng =>
    simp only [List.length_append, List.length_cons, List.length_nil]
    simp only [List.length_append, List.length_cons, List.length_nil] at hng
    omega

theorem pushEntry_exceeded (h : List String) (k : ℕ) (e : String)
    (hpos : 0 < k) (hgt : k < h.length + 1) :
    (pushEntry h k e).length = k ∧ List.IsSuffix (pushEntry h k e) (h ++ [e]) := by
  have hk : ¬ k = 0 := by omega
  have hcond : (h ++ [e]).length > k := by
    simp only [List.length_append, List.length_cons, List.length_nil]
    omega
  simp only [pushEntry, pySliceLast, hk, if_false, if_pos hcond]
  constructor
  · simp only [List.length_drop, List.length_append, List.length_cons, List.length_nil]
    omega
  · exact List.drop_suffix _ _

theorem add_err (c : Calculator) (ts : String) (a b : Value)
    (h : a.toNum = none ∨ b.toNum = none) :
    c.add ts a b = (Except.error CalcError.invalidOperand, c) := by
  rcases h with h | h
  · cases hb : b.toNum <;> simp [Calculator.add, h, hb]
  · cases ha : a.toNum <;> simp [Calculator.add, h, ha]

theorem subtract_err (c : Calculator) (ts : String) (a b : Value)
    (h : a.toNum = none ∨ b.toNum = none) :
    c.subtract ts a b = (Except.error CalcError.invalidOperand, c) := by
  rcases h with h | h
  · cases hb : b.toNum <;> simp [Calculator.subtract, h, hb]
  · cases ha : a.toNum <;> simp [Calculator.subtract, h, ha]

theorem multiply_err (c : Calculator) (ts : String) (a b : Value)
    (h : a.toNum = none ∨ b.toNum = none) :
    c.multiply ts a b = (Except.error CalcError.invalidOperand, c) := by
  rcases h with h | h
  · cases hb : b.toNum <;> simp [Calculator.multiply, h, hb]
  · cases ha : a.toNum <;> simp [Calculator.multiply, h, ha]

theorem applyOp_shape (c : Calculator) (op : CalcOp) :
    (c.applyOp op).max_history = c.max_history
    ∧ ((c.applyOp op).history = c.history ∨ (c.applyOp op).history = []
       ∨ ∃ e, (c.applyOp op).history = pushEntry c.history c.max_history e) := by
  cases op <;>
    simp only [Calculator.applyOp, Calculator.add, Calculator.subtract, Calculator.multiply,
      Calculator.divide, Calculator.memory_add, Calculator.memory_subtract,
      Calculator.memory_recall, Calculator.memory_clear, Calculator.clear_history,
      Calculator.addToHistory] <;>
    (repeat' split) <;>
    constructor <;>
    first
      | rfl
      | trivial
      | exact Or.inl rfl
      | exact Or.inl trivial
      | exact Or.inr (Or.inl rfl)
      | exact Or.inr (Or.inl trivial)
      | exact Or.inr (Or.inr ⟨_, rfl⟩)

/-- Claim C1: for convertible operands, `add`, `subtract`, `multiply` and
(for a nonzero divisor) `divide` return the exact arithmetic result of the
converted operands; each successful call appends exactly one history entry
through the shared append routine and sets the last result to the value
returned. -/
theorem arithmetic_ops_correct (c : Calculator) (ts : String) (a b : Value) (x y : ℚ)
    (ha : a.toNum = some x) (hb : b.toNum = some y) :
    ((c.add ts a b).1 = Except.ok (x + y)
      ∧ (c.add ts a b).2.last_result = some (x + y)
      ∧ (c.add ts a b).2.history = pushEntry c.history c.max_history
          ("[" ++ ts ++ "] " ++ (a.repr ++ " + " ++ b.repr ++ " = " ++ toString (x + y))))
    ∧ ((c.subtract ts a b).1 = Except.ok (x - y)
      ∧ (c.subtract ts a b).2.last_result = some (x - y)
      ∧ (c.subtract ts a b).2.history = pushEntry c.history c.max_history
          ("[" ++ ts ++ "] " ++ (a.repr ++ " - " ++ b.repr ++ " = " ++ toString (x - y))))
    ∧ ((c.multiply ts a b).1 = Except.ok (x * y)
      ∧ (c.multiply ts a b).2.last_result = some (x * y)
      ∧ (c.multiply ts a b).2.history = pushEntry c.history c.max_history
          ("[" ++ ts ++ "] " ++ (a.repr ++ " * " ++ b.repr ++ " = " ++ toString (x * y))))
    ∧ (y ≠ 0 →
      (c.divide ts a b).1 = Except.ok (x / y)
      ∧ (c.divide ts a b).2.last_result = some (x / y)
      ∧ (c.divide ts a b).2.history = pushEntry c.history c.max_history
          ("[" ++ ts ++ "] " ++ (a.repr ++ " / " ++ b.repr ++ " = " ++ toString (x / y)))) := by
  refine ⟨?_, ?_, ?_, fun hy => ?_⟩ <;>
    simp [Calculator.add, Calculator.subtract, Calculator.multiply, Calculator.divide,
      Calculator.addToHistory, ha, hb, *]

/-- Witness for C1 at `add(2, 3)` on a fresh calculator. -/
theorem arithmetic_ops_correct_witness :
    (floatValue 2).toNum = some 2
    ∧ ((Calculator.init 5).add "t" (floatValue 2) (floatValue 3)).1 = Except.ok 5 := by
  refine ⟨rfl, ?_⟩
  have h := (arithmetic_ops_correct (Calculator.init 5) "t"
    (floatValue 2) (floatValue 3) 2 3 rfl rfl).1.1
  rw [h]
  norm_num

/-- Claim C2: dividing by a value converting to zero raises
`ZeroDivisionError` before the division, and the call returns the
calculator state exactly as it was (history and last result untouched). -/
theorem divide_by_zero_unchanged (c : Calculator) (ts : String) (a b : Value)
    (hb : b.toNum = some 0) :
    c.divide ts a b = (Except.error CalcError.divisionByZero, c) := by
  simp [Calculator.divide, hb]

/-- Witness for C2: `divide(7, 0)` on a fresh calculator. -/
theorem divide_by_zero_unchanged_witness :
    (floatValue 0).toNum = some 0
    ∧ (Calculator.init 5).divide "t" (floatValue 7) (floatValue 0)
        = (Except.error CalcError.divisionByZero, Calculator.init 5) :=
  ⟨rfl, divide_by_zero_unchanged (Calculator.init 5) "t" (floatValue 7) (floatValue 0) rfl⟩

/-- Claim C3: with a positive bound, every `Calculator` method preserves
`history.length ≤ max_history` (and the bound itself); moreover, whenever an
append would exceed the bound, the shared append routine drops entries from
the front, returning a suffix of length exactly `max_history`. -/
theorem ops_preserve_history_bound (c : Calculator) (op : CalcOp)
    (hpos : 0 < c.max_history) (hle : c.history.length ≤ c.max_history) :
    (c.applyOp op).history.length ≤ c.max_history
    ∧ (c.applyOp op).max_history = c.max_history
    ∧ ∀ e, c.max_history < c.history.length + 1 →
        (pushEntry c.history c.max_history e).length = c.max_history
        ∧ List.IsSuffix (pushEntry c.history c.max_history e) (c.history ++ [e]) := by
  obtain ⟨hmax, hshape⟩ := applyOp_shape c op
  refine ⟨?_, hmax, fun e hgt => pushEntry_exceeded c.history c.max_history e hpos hgt⟩
  rcases hshape with h | h | ⟨e, h⟩
  · rw [h]; exact hle
  · simp [h]
  · rw [h]; exact pushEntry_length_le _ _ _ hpos hle

/-- Witness for C3: clearing memory on a fresh bounded calculator. -/
theorem ops_preserve_history_bound_witness :
    0 < (Calculator.init 1).max_history
    ∧ ((Calculator.init 1).applyOp (CalcOp.memClear "t")).history.length
        ≤ (Calculator.init 1).max_history :=
  ⟨by decide,
    (ops_preserve_history_bound (Calculator.init 1) (CalcOp.memClear "t")
      (by decide) (by decide)).1⟩

/-- Claim C4: with `max_history = 3`, five successful additions leave
exactly the three entries of the third, fourth and fifth operations, in
chronological order. -/
theorem history_fifo_eviction_example :
    calcC4.history = ["[t3] 3 + 3 = 6", "[t4] 4 + 4 = 8", "[t5] 5 + 5 = 10"]
    ∧ calcC4.history.length = 3 := by
  constructor <;> with_unfolding_all rfl

/-- Counterexample to claim C5 as stated: the dividend is not convertible,
yet `divide` with a zero divisor raises `ZeroDivisionError`, not the
InvalidOperand `TypeError`, because the zero check runs first. -/
theorem invalid_operand_counterexample :
    (nonNumeric "x").toNum = none
    ∧ ((Calculator.init 5).divide "t" (nonNumeric "x") (floatValue 0)).1
        = Except.error CalcError.divisionByZero
    ∧ CalcError.divisionByZero ≠ CalcError.invalidOperand := by
  refine ⟨rfl, ?_, by decide⟩
  with_unfolding_all rfl

/-- Claim C5 (amended): `add`, `subtract` and `multiply` raise the
InvalidOperand `TypeError` whenever either operand fails conversion, and
`divide` does so unless the divisor converts to zero (DivisionByZero takes
precedence there); every such failure returns the state unchanged. -/
theorem invalid_operand_rejected (c : Calculator) (ts : String) (a b : Value)
    (h : a.toNum = none ∨ b.toNum = none) :
    c.add ts a b = (Except.error CalcError.invalidOperand, c)
    ∧ c.subtract ts a b = (Except.error CalcError.invalidOperand, c)
    ∧ c.multiply ts a b = (Except.error CalcError.invalidOperand, c)
    ∧ (b.toNum ≠ some 0 → c.divide ts a b = (Except.error CalcError.invalidOperand, c)) := by
  refine ⟨add_err c ts a b h, subtract_err c ts a b h, multiply_err c ts a b h, fun hb0 => ?_⟩
  cases hb : b.toNum with
  | none => simp [Calculator.divide, hb]
  | some y =>
    have hy : y ≠ 0 := by
      rintro rfl
      exact hb0 hb
    rcases h with h | h
    · simp [Calculator.divide, hb, hy, h]
    · rw [h] at hb
      exact Option.noConfusion hb

/-- Witness for C5 (amended): `add` with a non-numeric first operand. -/
theorem invalid_operand_rejected_witness :
    ((nonNumeric "x").toNum = none ∨ (floatValue 1).toNum = none)
    ∧ (Calculator.init 5).add "t" (nonNumeric "x") (floatValue 1)
        = (Except.error CalcError.invalidOperand, Calculator.init 5) :=
  ⟨Or.inl rfl,
    (invalid_operand_rejected (Calculator.init 5) "t" (nonNumeric "x") (floatValue 1)
      (Or.inl rfl)).1⟩

/-- Claim C6: a memory operation with the value omitted raises the
NoLastResult `ValueError` exactly when no last result is stored; when one
is stored it is the value used, so memory moves by the last result. -/
theorem memory_default_last_result (c : Calculator) (ts : String) :
    ((c.memory_add ts none).1 = Except.error CalcError.noLastResult ↔ c.last_result = none)
    ∧ ((c.memory_subtract ts none).1 = Except.error CalcError.noLastResult ↔ c.last_result = none)
    ∧ (∀ r, c.last_result = some r →
        (c.memory_add ts none).1 = Except.ok ()
        ∧ (c.memory_add ts none).2.memory = c.memory + r
        ∧ (c.memory_subtract ts none).1 = Except.ok ()
        ∧ (c.memory_subtract ts none).2.memory = c.memory - r) := by
  cases hl : c.last_result with
  | none => simp [Calculator.memory_add, Calculator.memory_subtract, hl]
  | some r0 =>
    simp [Calculator.memory_add, Calculator.memory_subtract, Calculator.addToHistory, hl]

/-- Witness for C6: NoLastResult on a fresh calculator, and `memory_add()`
right after `add(10, 5)` leaving memory at 15. -/
theorem memory_default_last_result_witness :
    ((Calculator.init 5).memory_add "t" none).1 = Except.error CalcError.noLastResult
    ∧ (((Calculator.init 5).add "t1" (floatValue 10) (floatValue 5)).2.memory_add
        "t2" none).2.memory = 15 := by
  constructor
  · exact (memory_default_last_result (Calculator.init 5) "t").1.mpr rfl
  · have h := (memory_default_last_result
      ((Calculator.init 5).add "t1" (floatValue 10) (floatValue 5)).2 "t2").2.2 15
      (by with_unfolding_all rfl)
    rw [h.2.1]
    with_unfolding_all rfl

/-- Claim C9: the constructor accepts a zero bound; with `max_history = 0`
the slice `history[-0:]` keeps the whole list, so the append routine adds
its entry without dropping anything and the length strictly exceeds the
bound after every append. -/
theorem zero_max_history_unbounded (c : Calculator) (ts e : String)
    (h : c.max_history = 0) :
    (Calculator.init 0).max_history = 0
    ∧ (c.addToHistory ts e).history = c.history ++ ["[" ++ ts ++ "] " ++ e]
    ∧ c.max_history < (c.addToHistory ts e).history.length := by
  refine ⟨rfl, ?_, ?_⟩ <;>
    simp [Calculator.addToHistory, pushEntry, pySliceLast, h]

/-- Witness for C9: the first entry on a zero-bound calculator. -/
theorem zero_max_history_unbounded_witness :
    (Calculator.init 0).max_history = 0
    ∧ ((Calculator.init 0).addToHistory "t" "e").history = ["[t] e"] := by
  have h := zero_max_history_unbounded (Calculator.init 0) "t" "e" rfl
  refine ⟨h.1, ?_⟩
  rw [h.2.1]
  with_unfolding_all rfl

/-- Claim C10: with a zero divisor, the zero check precedes the conversion
of the dividend, so `divide(a, 0)` raises `ZeroDivisionError` — not the
InvalidOperand `TypeError` — even when `a` is not convertible. -/
theorem divide_zero_check_precedes_dividend (c : Calculator) (ts : String) (a b : Value)
    (ha : a.toNum = none) (hb : b.toNum = some 0) :
    c.divide ts a b = (Except.error CalcError.divisionByZero, c)
    ∧ CalcError.divisionByZero ≠ CalcError.invalidOperand := by
  refine ⟨by simp [Calculator.divide, hb], by decide⟩

/-- Witness for C10: `divide("x", 0)` with a non-numeric dividend. -/
theorem divide_zero_check_precedes_dividend_witness :
    (nonNumeric "x").toNum = none
    ∧ (Calculator.init 5).divide "t" (nonNumeric "x") (floatValue 0)
        = (Except.error CalcError.divisionByZero, Calculator.init 5) :=
  ⟨rfl,
    (divide_zero_check_precedes_dividend (Calculator.init 5) "t" (nonNumeric "x")
      (floatValue 0) rfl rfl).1⟩

/-- Counterexample to claim C8 as stated: the line `adder 1 2` carries the
command word `adder`, which is none of the recognized commands, yet the
loop's prefix matching dispatches it to `Calculator.add` and prints a
result — no unknown-command message. -/
theorem unknown_command_counterexample :
    (pySplit "adder 1 2").head? = some "adder"
    ∧ ("adder" ∉ (["add", "sub", "mul", "div", "m+", "m-", "mr", "mc",
        "history", "clear_history", "export", "help", "quit"] : List String))
    ∧ (processCommand (Calculator.init 5) "t" "adder 1 2").invoked
        = [CalcOp.add "t" (floatValue 1) (floatValue 2)]
    ∧ (processCommand (Calculator.init 5) "t" "adder 1 2").msg = Msg.resultMsg 3 := by
  refine ⟨by with_unfolding_all rfl, by decide, ?_, ?_⟩ <;> with_unfolding_all rfl

/-- Claim C8 (amended): every input line that, after stripping and
lowercasing, is none of the exact commands `quit`, `help`, `mr`, `mc`,
`history`, `clear_history`, `export` and does not begin with any of the
prefixes `add`, `sub`, `mul`, `div`, `m+`, `m-` is answered with the
unknown-command message, with no `Calculator` method invoked and the
state unchanged. -/
theorem unknown_command_no_op (c : Calculator) (ts raw : String)
    (h1 : raw.trim.toLower ≠ "quit")
    (h2 : raw.trim.toLower ≠ "help")
    (h3 : raw.trim.toLower.startsWith "add" = false)
    (h4 : raw.trim.toLower.startsWith "sub" = false)
    (h5 : raw.trim.toLower.startsWith "mul" = false)
    (h6 : raw.trim.toLower.startsWith "div" = false)
    (h7 : raw.trim.toLower.startsWith "m+" = false)
    (h8 : raw.trim.toLower.startsWith "m-" = false)
    (h9 : raw.trim.toLower ≠ "mr")
    (h10 : raw.trim.toLower ≠ "mc")
    (h11 : raw.trim.toLower ≠ "history")
    (h12 : raw.trim.toLower ≠ "clear_history")
    (h13 : raw.trim.toLower ≠ "export") :
    processCommand c ts raw =
      { state := c, invoked := [], msg := Msg.unknown (raw.trim.toLower),
        quitting := false } := by
  simp only [processCommand, h1, h2, h3, h4, h5, h6, h7, h8, h9, h10, h11, h12, h13,
    Bool.false_eq_true, if_false]

/-- Witness for C8 (amended): the line `foo` gets the unknown-command
message and touches nothing. -/
theorem unknown_command_no_op_witness :
    "foo".trim.toLower ≠ "quit"
    ∧ processCommand (Calculator.init 5) "t" "foo" =
        { state := Calculator.init 5, invoked := [], msg := Msg.unknown "foo",
          quitting := false } := by
  refine ⟨by with_unfolding_all decide, ?_⟩
  have h := unknown_command_no_op (Calculator.init 5) "t" "foo"
    (by with_unfolding_all decide) (by with_unfolding_all decide)
    (by with_unfolding_all rfl) (by with_unfolding_all rfl)
    (by with_unfolding_all rfl) (by with_unfolding_all rfl)
    (by with_unfolding_all rfl) (by with_unfolding_all rfl)
    (by with_unfolding_all decide) (by with_unfolding_all decide)
    (by with_unfolding_all decide) (by with_unfolding_all decide)
    (by with_unfolding_all decide)
  rw [h]
  with_unfolding_all rfl
